import Mathlib

/-
Shallow embedding of the core pipeline of `translate_cmd.py` from the
pdf_translation_layer repository, together with theorems settling the frozen
claims about its specification.

Conventions of the embedding:
* Python strings are Lean `String`s; the character-level operations
  (`str.replace`, `str.isdigit`, `str.strip`) are embedded on `List Char`
  with purpose-built structural recursions matching Python's left-to-right,
  non-overlapping replacement semantics.
* Python floats are embedded as `ℚ` (the arithmetic performed by the code on
  them -- subtraction of 1, averaging, comparison with 0 -- is exact for the
  dyadic rationals that floats denote).
* Python dicts keyed by strings are embedded as association lists
  (`List (String × β)`) with `dictInsert` reproducing dict assignment
  (overwrite in place if the key exists, append otherwise).
* The translation backend (an external OpenAI-compatible service) is a
  parameter: a function from the call index and prompt to an optional
  response, `none` standing for a raised-and-caught exception.
* Fallible code (`assert`, `raise`) is embedded with `Except String`.
-/

namespace PdfTranslationLayer

/-! ### TextTranslator: cache state and `translate_text`
Source: `translate_cmd.py`, class `TextTranslator` (lines 18-61). -/

/-- The mutable state of a `TextTranslator`: the translation cache
(`self.translation_cache`, a dict from source text to translated text) and
the number of backend invocations performed so far (used to index the
abstract backend, so that a stateful backend can be modelled). -/
structure TState where
  cache : List (String × String)
  calls : ℕ
deriving DecidableEq

/-- Python dict assignment `d[k] = v` on an association list: overwrite in
place when the key is present, append otherwise. -/
def dictInsert {β : Type} (d : List (String × β)) (k : String) (v : β) : List (String × β) :=
  if (d.lookup k).isSome then
    d.map (fun p => if p.1 = k then (k, v) else p)
  else
    d ++ [(k, v)]

/-- `TextTranslator._create_prompt_text` (line 56): the abstract-method
default `return text`; neither concrete translator overrides this name
(the OpenAI translator defines `_create_prompt` instead), so it is the
identity in every code path. -/
def create_prompt_text (text : String) : String := text

/-- `TextTranslator.translate_text` (lines 37-46): cache hit returns the
stored value; cache miss runs `_execute_prompt(_create_prompt_text(text))`
(modelled by `exec`, indexed by the running invocation count), stores and
returns a non-null result, and returns the original text on a null result
without writing a cache entry. -/
def translate_text (exec : ℕ → String → Option String) (st : TState) (text : String) :
    String × TState :=
  match st.cache.lookup text with
  | some v => (v, st)
  | none =>
    let result := exec st.calls (create_prompt_text text)
    let st1 : TState := { st with calls := st.calls + 1 }
    match result with
    | some r => (r, { st1 with cache := dictInsert st1.cache text r })
    | none => (text, st1)

/-- `TextTranslator.get_request_token_count` (lines 48-49):
`len(self._create_prompt_text(text))`. -/
def get_request_token_count (text : String) : ℕ :=
  (create_prompt_text text).length

/-! ### OpenAiCompatibleTranslator: prompt and `_execute_prompt`
Source: `translate_cmd.py`, lines 63-113. -/

/-- `OpenAiCompatibleTranslator._create_prompt` (lines 78-79): the exact
f-string template of the source. -/
def create_prompt (lang_from lang_to text : String) : String :=
  "You are an expert in " ++ lang_from ++ " and " ++ lang_to ++
  ".\nPlease provide a high-quality translation of the following text from " ++ lang_from ++
  " to " ++ lang_to ++
  ". Only generate the translated text while keeping any existing line breaks.  No additional text or explanation needed.Since this text came from OCR it could contain gibberish.In that case just return it unchanged.\nText: " ++ text

/-- A chat-completion response from the backend: finish reason plus message
content (`response.choices[0]`). -/
structure OpenAiResponse where
  finish_reason : String
  content : String
deriving DecidableEq

/-- `OpenAiCompatibleTranslator._execute_prompt` (lines 81-110).
`tok` embeds `self._get_token_count` (the tiktoken count), `ctx` embeds
`self.model_context_size`, and `backend` embeds the
`client.chat.completions.create` call, receiving the prompt and the
`max_completion_tokens` cap; `backend` returning `none` models a raised
exception, which the source catches and converts to a null result.
The second component counts backend invocations. -/
def execute_prompt (tok : String → ℕ) (ctx : ℤ)
    (backend : String → ℤ → Option OpenAiResponse)
    (lang_from lang_to text : String) : Option String × ℕ :=
  (match backend (create_prompt lang_from lang_to text)
      (max (ctx - (tok (create_prompt lang_from lang_to text) : ℤ)) ctx) with
   | some resp => if resp.finish_reason = "stop" then some resp.content else none
   | none => none,
   1)

/-! ### sanitize_text
Source: `translate_cmd.py`, lines 245-247. -/

/-- Python `s.replace('\r\n', '\n')`: left-to-right single-pass replacement
of the two-character sequence. -/
def replace_crlf : List Char → List Char
  | [] => []
  | [c] => [c]
  | c :: d :: rest =>
    if c = '\r' ∧ d = '\n' then '\n' :: replace_crlf rest
    else c :: replace_crlf (d :: rest)

/-- Python `s.replace('\r', '\n')`: single-character replacement. -/
def replace_cr_nl (l : List Char) : List Char :=
  l.map (fun c => if c = '\r' then '\n' else c)

/-- Python `s.replace(c, '')`: removal of every occurrence of one character. -/
def remove_char (c : Char) (l : List Char) : List Char :=
  l.filter (fun x => x ≠ c)

/-- Python `s.isdigit()` (restricted to the ASCII digits that occur in this
pipeline): true iff the string is nonempty and every character is a digit. -/
def pyIsDigit (l : List Char) : Bool :=
  !l.isEmpty && l.all Char.isDigit

/-- `sanitize_text` (lines 245-247):
`result = text.replace('\r\n', '\n').replace('\r', '\n')`, and the
translatability flag is `not text.replace('\n', '').replace(' ', '').isdigit()`
-- note the digit check runs on the original `text`, not on `result`. -/
def sanitize_text (text : String) : String × Bool :=
  let result := (replace_cr_nl (replace_crlf text.toList)).asString
  (result, !(pyIsDigit (remove_char ' ' (remove_char '\n' text.toList))))

/-- Specification-side single-pass newline normalization: every `\r\n` and
every lone `\r` becomes `\n`.  Used to state (not to define) what the
two-pass replacement chain of `sanitize_text` computes. -/
def normalize_newlines_spec : List Char → List Char
  | [] => []
  | [c] => [if c = '\r' then '\n' else c]
  | c :: d :: rest =>
    if c = '\r' ∧ d = '\n' then '\n' :: normalize_newlines_spec rest
    else (if c = '\r' then '\n' else c) :: normalize_newlines_spec (d :: rest)

/-- The characters Python's `str.strip()` and `str.isspace()` treat as
whitespace. -/
def pyIsSpace (c : Char) : Bool :=
  c = ' ' || c = '\t' || c = '\n' || c = '\r' || c = '\x0b' || c = '\x0c'

/-! ### extract_blocks
Source: `translate_cmd.py`, lines 188-243.  The page's structured text
representation (PyMuPDF's `page.get_text("dict")`) is a list of blocks, each
optionally carrying lines, each line optionally carrying a direction vector
`dir` and carrying spans with text, font size and font name. -/

/-- One span of `page.get_text("dict")`: `span["text"]`, `span["size"]`,
`span["font"]`. -/
structure Span where
  text : String
  size : ℚ
  font : String
deriving DecidableEq

/-- One line: the optional direction vector `line["dir"]` and the spans. -/
structure Line where
  dir : Option (ℚ × ℚ)
  spans : List Span
deriving DecidableEq

/-- One raw block of the text dict: `block["bbox"]`, and `block["lines"]`
when the `"lines"` key is present (`none` embeds a non-text block). -/
structure PyBlock where
  bbox : ℚ × ℚ × ℚ × ℚ
  lines : Option (List Line)
deriving DecidableEq

/-- Python's built-in `round` on the exact value of a float: round half to
even (banker's rounding). -/
def pythonRound (q : ℚ) : ℤ :=
  let f := ⌊q⌋
  let r := q - f
  if r < 1/2 then f
  else if 1/2 < r then f + 1
  else if f % 2 = 0 then f else f + 1

/-- `rotation = (round(rotation[0]), round(rotation[1]))` (line 213). -/
def roundDir (d : ℚ × ℚ) : ℤ × ℤ :=
  (pythonRound d.1, pythonRound d.2)

/-- The `rotations` list accumulated over a block's lines (lines 207-215):
each line carrying a `dir` contributes its rounded vector, appended only if
not already present (distinct, in first-encountered order). -/
def blockRotations (lines : List Line) : List (ℤ × ℤ) :=
  lines.foldl
    (fun rots l =>
      match l.dir with
      | none => rots
      | some d =>
        let r := roundDir d
        if r ∈ rots then rots else rots ++ [r])
    []

/-- `block_text`: concatenation of all span texts in order, no separators
(lines 204, 217-218). -/
def blockText (lines : List Line) : String :=
  String.join ((lines.map (fun l => l.spans.map (fun s => s.text))).flatten)

/-- The collected span font sizes of a block (line 219). -/
def blockFontSizes (lines : List Line) : List ℚ :=
  (lines.map (fun l => l.spans.map (fun s => s.size))).flatten

/-- The collected span font names of a block (line 220). -/
def blockFontNames (lines : List Line) : List String :=
  (lines.map (fun l => l.spans.map (fun s => s.font))).flatten

/-- `Counter(fonts).most_common(1)[0][0]`: the most frequent element, ties
broken by first occurrence (Counter preserves insertion order and
`most_common(1)` keeps the first maximum); `none` when the list is empty. -/
def mostCommon (l : List String) : Option String :=
  (l.foldl (fun acc s => if acc.contains s then acc else acc ++ [s]) []).foldl
    (fun best s =>
      match best with
      | none => some s
      | some b => if l.count b < l.count s then some s else best)
    none

/-- The extracted block record appended at lines 234-241.  The source also
stores `rotation`, the angle `degrees(atan2(-dir[1], dir[0]))` of the sole
direction; the angle is a transcendental function of `dir` and no claim
mentions its value, so the embedding keeps the rounded direction `dir`
itself from which the angle is computed. -/
structure ExtractedBlock where
  bbox : ℚ × ℚ × ℚ × ℚ
  text : String
  avg_font_size : ℚ
  common_font : Option String
  dir : Option (ℤ × ℤ)
deriving DecidableEq

/-- The message of the `assert len(rotations) <= 1` at line 232. -/
def multi_rotation_msg : String :=
  "block with multiple rotations are not supported right now"

/-- The per-block body of the extraction loop (lines 195-241): skip blocks
without lines; skip blocks whose concatenated text is empty or
all-whitespace (`if not block_text.strip(): continue`, line 223, which runs
before the rotation assert); then `assert len(rotations) <= 1` (line 232),
raising the multi-rotation error; otherwise build the block record. -/
def process_block (b : PyBlock) : Except String (Option ExtractedBlock) :=
  match b.lines with
  | none => .ok none
  | some lines =>
    let rotations := blockRotations lines
    let block_text := blockText lines
    let font_sizes := blockFontSizes lines
    let fonts := blockFontNames lines
    if block_text.toList.all pyIsSpace then .ok none
    else if 1 < rotations.length then
      .error multi_rotation_msg
    else
      .ok (some
        { bbox := b.bbox
          text := block_text
          avg_font_size := if font_sizes.isEmpty then 0 else font_sizes.sum / font_sizes.length
          common_font := mostCommon fonts
          dir := rotations.head? })

/-- `extract_blocks` (lines 188-243) over the page's block list: blocks are
processed in order, the first failing assert aborts extraction. -/
def extract_blocks : List PyBlock → Except String (List ExtractedBlock)
  | [] => .ok []
  | b :: rest =>
    match process_block b with
    | .error e => .error e
    | .ok none => extract_blocks rest
    | .ok (some eb) =>
      match extract_blocks rest with
      | .error e => .error e
      | .ok tl => .ok (eb :: tl)

/-- The number of distinct rounded line-direction vectors a raw block
carries (0 for blocks without a lines entry). -/
def distinctRoundedDirs (b : PyBlock) : ℕ :=
  match b.lines with
  | none => 0
  | some ls => (blockRotations ls).length

/-- Whether the extraction loop skips the block before the rotation assert:
no lines entry, or concatenated text empty or all-whitespace. -/
def isSkippedBlock (b : PyBlock) : Bool :=
  match b.lines with
  | none => true
  | some ls => (blockText ls).toList.all pyIsSpace

/-! ### Font catalog and resolution
Source: `translate_cmd.py`, `get_usable_fonts` (lines 130-186) and the
resolution snippet of `translate_pdf` (lines 355-362).  The catalog is a
dict from font name to an optional extracted-file path; `none` records a
font that is embedded but unusable (extraction failed or glyph-less). -/

/-- `FALLBACK_FONT_NAME = 'helv'` (line 16): the built-in baseline font
identifier requiring no external file. -/
def FALLBACK_FONT_NAME : String := "helv"

/-- `os.path.basename` for slash-separated paths. -/
def pyBasename (p : String) : String :=
  ((p.toList.foldl (fun acc c => if c = '/' then [] else acc ++ [c]) []).asString)

/-- The tail of `get_usable_fonts` (lines 179-186): when a default font path
is supplied, its basename becomes the designated default font name, and the
path is entered into the catalog unless that name is already present with a
usable asset; with no default path the designated name is the baseline
identifier. -/
def get_usable_fonts_default (fonts_dict : List (String × Option String))
    (default_font_path : Option String) : List (String × Option String) × String :=
  match default_font_path with
  | none => (fonts_dict, FALLBACK_FONT_NAME)
  | some p =>
    let default_font_name := pyBasename p
    if (fonts_dict.lookup default_font_name).isNone ∨
        ((fonts_dict.lookup default_font_name).join).isNone then
      (dictInsert fonts_dict default_font_name (some p), default_font_name)
    else
      (fonts_dict, default_font_name)

/-- The font-resolution snippet of `translate_pdf` (lines 355-362):

    font_name = block['common_font']
    if font_name not in usable_fonts and font_name != default_font_name:
        font_name = default_font_name
    font_file_path = usable_fonts.get(font_name, None)
    if font_file_path is None:
        font_name = FALLBACK_FONT_NAME

`requested` is `block['common_font']` (a Python `None` when the block had no
spans); the result is the final `(font_name, font_file_path)` pair passed to
`insert_text_block`. -/
def resolve_font (usable_fonts : List (String × Option String)) (default_font_name : String)
    (requested : Option String) : String × Option String :=
  let font_name : String :=
    match requested with
    | none => default_font_name
    | some s => if (usable_fonts.lookup s).isNone ∧ s ≠ default_font_name
                then default_font_name else s
  let font_file_path : Option String := (usable_fonts.lookup font_name).join
  if font_file_path.isNone then (FALLBACK_FONT_NAME, none)
  else (font_name, font_file_path)

/-! ### insert_text_block: the fit-to-box loop
Source: `translate_cmd.py`, lines 262-265:

    def insert_text_block(page, fontsize=11, **kwargs):
        while page.insert_textbox(fontsize=fontsize, **kwargs) < 0 and fontsize > 0:
            fontsize -= 1
            if fontsize <= 0: print("Could not render text")

`render` embeds `page.insert_textbox(...)` applied at a font size (the box,
text and remaining kwargs are fixed inside it); a negative result signals
overflow.  The embedding returns the list of font sizes at which `render`
was invoked, in order (the loop condition invokes it once per iteration,
including the final failing test), together with the number of times the
"Could not render text" diagnostic was printed. -/
def insert_text_block (render : ℚ → ℤ) (fontsize : ℚ) : List ℚ × ℕ :=
  if h : render fontsize < 0 ∧ 0 < fontsize then
    (fontsize :: (insert_text_block render (fontsize - 1)).1,
     (if fontsize - 1 ≤ 0 then 1 else 0) + (insert_text_block render (fontsize - 1)).2)
  else
    ([fontsize], 0)
termination_by (⌈fontsize⌉).toNat
decreasing_by
  have hpos : (0 : ℚ) < fontsize := h.2
  have h1 : (0 : ℤ) < ⌈fontsize⌉ := Int.ceil_pos.mpr hpos
  have h2 : ⌈fontsize - 1⌉ = ⌈fontsize⌉ - 1 := by
    rw [show fontsize - 1 = fontsize - (1 : ℤ) by push_cast; ring, Int.ceil_sub_int]
  omega

/-! ### translate_pdf: cache lifecycle skeleton
Source: `translate_cmd.py`, lines 268-386 together with the translator
constructors (lines 18-26, 63-76).  The claims about the lifecycle concern
only which runs end with the durable cache closed and whether an output file
is produced, so the embedding is the control-flow skeleton of

    translator = None
    try:
        translator = TranslatorClass(...)   # super().__init__ opens the shelve
                                            # cache, THEN the env asserts run
        ... per-page work ...
        doc.ez_save(output_file)
    except:
        if translator is not None:
            translator.close_cache()
        raise

with the per-page body collapsed into a single may-fail step. -/

/-- The externally observable resource state of a run: whether the durable
(shelve) cache is currently open, and the saved output file if any. -/
structure RunState where
  cache_open : Bool
  output : Option String
deriving DecidableEq

/-- `OpenAiCompatibleTranslator.__init__` (lines 64-76): `super().__init__`
opens the shelve cache whenever a cache file is configured (lines 24-25),
and only afterwards the environment assertions run (lines 71-73); a failing
assertion raises with the cache already open.  Returns the cache-open flag
together with the raised error, if any. -/
def openai_init (cache_file : Option String) (config_ok : Bool) : Bool × Option String :=
  (cache_file.isSome, if config_ok then none else some "OPENAI_API_MODEL is not set")

/-- `TextTranslator.close_cache` (lines 31-35): closes the durable store (or
resets the in-memory dict). -/
def close_cache (st : RunState) : RunState :=
  { st with cache_open := false }

/-- The lifecycle skeleton of `translate_pdf` (lines 305-386).  `config_ok`
abstracts the constructor's environment assertions, `body_ok` abstracts the
whole per-page/per-block body and the final save.  The result is the final
resource state together with the propagated exception, if any.  When the
constructor itself raises, the local `translator` is still `None`, so the
`except` clause does not call `close_cache`. -/
def translate_pdf_lifecycle (cache_file : Option String) (config_ok : Bool) (body_ok : Bool)
    (output_file : String) : RunState × Option String :=
  let init := openai_init cache_file config_ok
  match init.2 with
  | some e => ({ cache_open := init.1, output := none }, some e)
  | none =>
    let st : RunState := { cache_open := init.1, output := none }
    if body_ok then
      ({ st with output := some output_file }, none)
    else
      (close_cache st, some "exception in translation body")

/-! ## Theorems -/

/-! ### Helper lemmas -/

/-- After a dict assignment, looking the key up yields the assigned value. -/
theorem dictInsert_lookup_self {β : Type} (d : List (String × β)) (k : String) (v : β) :
    (dictInsert d k v).lookup k = some v := by
  unfold dictInsert
  split
  · rename_i h
    induction d with
    | nil => simp [List.lookup] at h
    | cons p rest ih =>
      obtain ⟨a, b⟩ := p
      by_cases ha : k = a
      · subst ha
        have hstep : List.map (fun p => if p.1 = k then (k, v) else p) ((k, b) :: rest) =
            (k, v) :: List.map (fun p => if p.1 = k then (k, v) else p) rest := by
          simp
        rw [hstep]
        simp [List.lookup]
      · have hne : (k == a) = false := beq_eq_false_iff_ne.mpr ha
        simp only [List.lookup, hne] at h
        simp only [List.map_cons]
        rw [show (if (a, b).1 = k then (k, v) else (a, b)) = (a, b) from
          if_neg (fun hh => ha hh.symm)]
        simp only [List.lookup, hne]
        exact ih h
  · induction d with
    | nil => simp [List.lookup]
    | cons p rest ih =>
      rename_i h
      obtain ⟨a, b⟩ := p
      by_cases ha : k = a
      · exfalso
        apply h
        subst ha
        simp [List.lookup]
      · have hne : (k == a) = false := beq_eq_false_iff_ne.mpr ha
        simp only [List.cons_append, List.lookup, hne]
        exact ih (by simp only [List.lookup, hne] at h; exact h)

/-- The two-pass replacement chain of `sanitize_text` computes the
single-pass newline normalization. -/
theorem replace_chain_eq_normalize (l : List Char) :
    replace_cr_nl (replace_crlf l) = normalize_newlines_spec l := by
  induction l using replace_crlf.induct with
  | case1 => rfl
  | case2 c => simp [replace_crlf, replace_cr_nl, normalize_newlines_spec]
  | case3 c d rest hcd ih =>
    simp only [replace_crlf, normalize_newlines_spec, if_pos hcd]
    simp [replace_cr_nl, hcd.2]
    exact ih
  | case4 c d rest hcd ih =>
    simp only [replace_crlf, normalize_newlines_spec, if_neg hcd]
    simp only [replace_cr_nl, List.map_cons] at ih ⊢
    rw [ih]

/-- A whitespace character is not a digit. -/
theorem pyIsSpace_not_digit (c : Char) (h : pyIsSpace c = true) : c.isDigit = false := by
  simp only [pyIsSpace, Bool.or_eq_true, decide_eq_true_eq] at h
  rcases h with ((((h | h) | h) | h) | h) | h <;> subst h <;> decide

/-- The digit check of `sanitize_text` runs on the original text with only
newlines and spaces removed; a string none of whose characters is a digit
can never pass it. -/
theorem sanitize_no_digit (s : String) (h : ∀ c ∈ s.toList, c.isDigit = false) :
    (sanitize_text s).2 = true := by
  simp only [sanitize_text, Bool.not_eq_true']
  rcases hr : remove_char ' ' (remove_char '\n' s.toList) with _ | ⟨c, rest⟩
  · rfl
  · have hc : c ∈ s.toList := by
      have hmem : c ∈ remove_char ' ' (remove_char '\n' s.toList) := by
        rw [hr]; exact List.mem_cons_self c rest
      exact List.mem_of_mem_filter (List.mem_of_mem_filter hmem)
    simp [pyIsDigit, h c hc]

/-! ### Backends used as concrete instantiations -/

/-- A backend whose first invocation raises (null result) and whose later
invocations return the fixed translation `r`. -/
def execFailThenOk (r : String) : ℕ → String → Option String :=
  fun n _ => if n = 0 then none else some r

/-- A backend that always fails. -/
def execAlwaysFail : ℕ → String → Option String := fun _ _ => none

/-- A backend that always returns the fixed translation `r`. -/
def execAlwaysOk (r : String) : ℕ → String → Option String := fun _ _ => some r

/-! ### C1: cache idempotence of `translate_text` -/

/-- C1 (counterexample): the claim "calling `translate_text` twice with X
invokes the backend at most once, and the second call returns the same value
as the first" is false as stated: against a backend whose first invocation
fails, the first call returns the original text "X", the second call invokes
the backend a second time (two invocations in total) and returns its
translation "T" ≠ "X". -/
theorem C1_cache_counterexample :
    (translate_text (execFailThenOk "T") { cache := [], calls := 0 } "X").1 = "X" ∧
    (translate_text (execFailThenOk "T")
      (translate_text (execFailThenOk "T") { cache := [], calls := 0 } "X").2 "X").1 = "T" ∧
    (translate_text (execFailThenOk "T") { cache := [], calls := 0 } "X").1 ≠
      (translate_text (execFailThenOk "T")
        (translate_text (execFailThenOk "T") { cache := [], calls := 0 } "X").2 "X").1 ∧
    (translate_text (execFailThenOk "T")
      (translate_text (execFailThenOk "T") { cache := [], calls := 0 } "X").2 "X").2.calls = 2 := by
  decide

/-- C1 (amended): a single call to `translate_text` invokes the backend at
most once; if the key is cached the stored value is returned with no backend
invocation and no state change; and if an uncached first call's backend
invocation succeeds, the second call with the same text performs no further
invocation and returns the same value. -/
theorem C1_cache_amended (exec : ℕ → String → Option String) (st : TState) (X : String) :
    (translate_text exec st X).2.calls ≤ st.calls + 1 ∧
    (∀ v, st.cache.lookup X = some v → translate_text exec st X = (v, st)) ∧
    (∀ r, st.cache.lookup X = none → exec st.calls (create_prompt_text X) = some r →
      (translate_text exec st X).1 = r ∧
      translate_text exec (translate_text exec st X).2 X =
        (r, (translate_text exec st X).2)) := by
  refine ⟨?_, ?_, ?_⟩
  · unfold translate_text
    rcases h : st.cache.lookup X with _ | v
    · rcases he : exec st.calls (create_prompt_text X) with _ | r <;> simp
    · simp
  · intro v hv
    simp [translate_text, hv]
  · intro r hmiss hr
    have h1 : translate_text exec st X =
        (r, { cache := dictInsert st.cache X r, calls := st.calls + 1 }) := by
      simp [translate_text, hmiss, hr]
    refine ⟨by rw [h1], ?_⟩
    rw [h1]
    simp [translate_text, dictInsert_lookup_self]

/-- C1 (witness): the amended theorem at concrete inputs -- a hit on a
one-entry cache, and a successful miss followed by a backend-free second
call. -/
theorem C1_cache_amended_witness :
    (translate_text (execAlwaysOk "Bonjour") { cache := [], calls := 0 } "Hello").2.calls ≤ 0 + 1 ∧
    translate_text (execAlwaysOk "Bonjour") { cache := [("Hello", "Bonjour")], calls := 3 } "Hello" =
      ("Bonjour", { cache := [("Hello", "Bonjour")], calls := 3 }) ∧
    (translate_text (execAlwaysOk "Bonjour") { cache := [], calls := 0 } "Hello").1 = "Bonjour" ∧
    translate_text (execAlwaysOk "Bonjour")
        (translate_text (execAlwaysOk "Bonjour") { cache := [], calls := 0 } "Hello").2 "Hello" =
      ("Bonjour", (translate_text (execAlwaysOk "Bonjour") { cache := [], calls := 0 } "Hello").2) := by
  refine ⟨(C1_cache_amended (execAlwaysOk "Bonjour") { cache := [], calls := 0 } "Hello").1,
    (C1_cache_amended (execAlwaysOk "Bonjour")
      { cache := [("Hello", "Bonjour")], calls := 3 } "Hello").2.1 "Bonjour" (by decide),
    ?_⟩
  exact (C1_cache_amended (execAlwaysOk "Bonjour")
    { cache := [], calls := 0 } "Hello").2.2 "Bonjour" (by decide) (by decide)

/-! ### C2: failed miss leaves no cache entry -/

/-- C2 (confirmed): on a cache miss whose backend invocation yields a null
result, `translate_text` returns the original text, the cache is unchanged
(in particular the key is still absent), and a subsequent call with the same
text invokes the backend again. -/
theorem C2_failed_miss (exec : ℕ → String → Option String) (st : TState) (X : String)
    (hmiss : st.cache.lookup X = none)
    (hfail : exec st.calls (create_prompt_text X) = none) :
    translate_text exec st X = (X, { cache := st.cache, calls := st.calls + 1 }) ∧
    (translate_text exec st X).2.cache.lookup X = none ∧
    (translate_text exec (translate_text exec st X).2 X).2.calls = st.calls + 2 := by
  have h1 : translate_text exec st X = (X, { cache := st.cache, calls := st.calls + 1 }) := by
    simp [translate_text, hmiss, hfail]
  refine ⟨h1, by rw [h1]; exact hmiss, ?_⟩
  rw [h1]
  rcases h2 : exec (st.calls + 1) (create_prompt_text X) with _ | r <;>
    simp [translate_text, hmiss, h2]

/-- C2 (witness): the theorem at a concrete input, with the
always-failing backend. -/
theorem C2_failed_miss_witness :
    translate_text execAlwaysFail { cache := [], calls := 0 } "Hello world" =
      ("Hello world", { cache := [], calls := 1 }) ∧
    (translate_text execAlwaysFail { cache := [], calls := 0 } "Hello world").2.cache.lookup
      "Hello world" = none ∧
    (translate_text execAlwaysFail
      (translate_text execAlwaysFail { cache := [], calls := 0 } "Hello world").2
      "Hello world").2.calls = 0 + 2 :=
  C2_failed_miss execAlwaysFail { cache := [], calls := 0 } "Hello world" (by decide) (by decide)

/-! ### C4: sanitize_text -/

/-- C4 (counterexample): the claim "is_translatable = False iff the
normalized text with all newlines and spaces removed consists solely of
digits" (with claimed example `sanitize("   123  \r\n 45 ") = (..., False)`)
is false: at that very input the normalized text stripped of newlines and
spaces is the all-digit "12345", yet the flag is True, because the source
runs the digit check on the original text, which still contains the
carriage return. -/
theorem C4_sanitize_counterexample :
    (sanitize_text "   123  \r\n 45 ").2 = true ∧
    pyIsDigit (remove_char ' '
      (remove_char '\n' ((sanitize_text "   123  \r\n 45 ").1.toList))) = true ∧
    sanitize_text "   123  \r\n 45 " ≠ ("   123  \n 45 ", false) := by
  decide

/-- C4 (amended): `sanitize_text` converts every `\r\n` and lone `\r` to
`\n`; and it returns is_translatable = False iff the ORIGINAL text with all
`\n` and space characters removed (carriage returns are kept, as the check
runs before normalization) is nonempty and consists solely of digits.  In
particular `sanitize("a\r\nb\rc") = ("a\nb\nc", True)` and
`sanitize("   123  \r\n 45 ") = ("   123  \n 45 ", True)`. -/
theorem C4_sanitize_amended (s : String) :
    (sanitize_text s).1 = (normalize_newlines_spec s.toList).asString ∧
    ((sanitize_text s).2 = false ↔
      (s.toList.filter (fun c => c ≠ '\n' ∧ c ≠ ' ') ≠ [] ∧
        ∀ c ∈ s.toList.filter (fun c => c ≠ '\n' ∧ c ≠ ' '), c.isDigit = true)) ∧
    sanitize_text "a\r\nb\rc" = ("a\nb\nc", true) ∧
    sanitize_text "   123  \r\n 45 " = ("   123  \n 45 ", true) := by
  refine ⟨?_, ?_, by decide, by decide⟩
  · show (replace_cr_nl (replace_crlf s.toList)).asString = _
    rw [replace_chain_eq_normalize]
  · show (!(pyIsDigit (remove_char ' ' (remove_char '\n' s.toList)))) = false ↔ _
    have hfilter : remove_char ' ' (remove_char '\n' s.toList) =
        s.toList.filter (fun c => c ≠ '\n' ∧ c ≠ ' ') := by
      simp only [remove_char, List.filter_filter]
      congr 1
      funext a
      by_cases h1 : a = '\n' <;> by_cases h2 : a = ' ' <;> simp [h1, h2]
    rw [hfilter]
    rcases hl : s.toList.filter (fun c => c ≠ '\n' ∧ c ≠ ' ') with _ | ⟨c, rest⟩
    · simp [pyIsDigit]
    · simp [pyIsDigit, List.all_eq_true]

/-! ### C3: the fit-to-box loop of `insert_text_block` -/

/-- One overflowing step of the fit loop. -/
theorem insert_text_block_step (render : ℚ → ℤ) (fontsize : ℚ)
    (h : render fontsize < 0 ∧ 0 < fontsize) :
    insert_text_block render fontsize =
      (fontsize :: (insert_text_block render (fontsize - 1)).1,
       (if fontsize - 1 ≤ 0 then 1 else 0) + (insert_text_block render (fontsize - 1)).2) := by
  rw [insert_text_block.eq_def, dif_pos h]

/-- The loop stops when the text fits or the size is not positive; the final
condition test still invokes the render primitive once. -/
theorem insert_text_block_stop (render : ℚ → ℤ) (fontsize : ℚ)
    (h : ¬(render fontsize < 0 ∧ 0 < fontsize)) :
    insert_text_block render fontsize = ([fontsize], 0) := by
  rw [insert_text_block.eq_def, dif_neg h]

/-- For natural starting sizes the loop performs at most `n + 1` render
attempts. -/
theorem insert_attempts_le (render : ℚ → ℤ) (n : ℕ) :
    (insert_text_block render (n : ℚ)).1.length ≤ n + 1 := by
  induction n with
  | zero =>
    rw [insert_text_block_stop render _ (fun h => by norm_num at h)]
    simp
  | succ k ih =>
    by_cases h : render ((k + 1 : ℕ) : ℚ) < 0 ∧ 0 < ((k + 1 : ℕ) : ℚ)
    · rw [insert_text_block_step render _ h]
      have hc : ((k + 1 : ℕ) : ℚ) - 1 = (k : ℚ) := by push_cast; ring
      rw [hc]
      simpa using Nat.succ_le_succ ih
    · rw [insert_text_block_stop render _ h]
      simp

/-- For natural starting sizes every attempted font size is nonnegative. -/
theorem insert_attempts_nonneg (render : ℚ → ℤ) (n : ℕ) :
    ∀ q ∈ (insert_text_block render (n : ℚ)).1, 0 ≤ q := by
  induction n with
  | zero =>
    rw [insert_text_block_stop render _ (fun h => by norm_num at h)]
    intro q hq
    simp at hq
    simp [hq]
  | succ k ih =>
    by_cases h : render ((k + 1 : ℕ) : ℚ) < 0 ∧ 0 < ((k + 1 : ℕ) : ℚ)
    · rw [insert_text_block_step render _ h]
      have hc : ((k + 1 : ℕ) : ℚ) - 1 = (k : ℚ) := by push_cast; ring
      rw [hc]
      intro q hq
      rcases List.mem_cons.mp hq with hq | hq
      · rw [hq]; positivity
      · exact ih q hq
    · rw [insert_text_block_stop render _ h]
      intro q hq
      simp at hq
      rw [hq]
      positivity

/-- When every attempt overflows and the integer starting size is at least
one, the size is decremented down to zero and the "Could not render text"
diagnostic is printed exactly once. -/
theorem insert_diag_once (render : ℚ → ℤ) (hfail : ∀ q, render q < 0) (n : ℕ) (hn : 1 ≤ n) :
    (insert_text_block render (n : ℚ)).2 = 1 := by
  induction n with
  | zero => omega
  | succ k ih =>
    by_cases hk : k = 0
    · subst hk
      rw [insert_text_block_step render _ ⟨hfail _, by norm_num⟩]
      have hc : ((0 + 1 : ℕ) : ℚ) - 1 = 0 := by push_cast; ring
      rw [hc]
      rw [insert_text_block_stop render _ (fun h => lt_irrefl 0 h.2)]
      norm_num
    · have hk1 : 1 ≤ k := Nat.one_le_iff_ne_zero.mpr hk
      rw [insert_text_block_step render _ ⟨hfail _, by positivity⟩]
      have hc : ((k + 1 : ℕ) : ℚ) - 1 = (k : ℚ) := by push_cast; ring
      rw [hc]
      have hpos : ¬((k : ℚ) ≤ 0) := by
        push_neg
        exact_mod_cast hk1
      rw [if_neg hpos, ih hk1]

/-- A render stub on which the text never fits. -/
def renderAlwaysOverflow : ℚ → ℤ := fun _ => -1

/-- C3 (counterexample): the loop decrements the font size by exactly 1.0
per attempt, so a fractional starting size skips zero: starting at the
nonnegative size 1/2 against an always-overflowing box, the render primitive
is invoked twice -- more than `starting_font_size + 1 = 3/2` times -- and the
second invocation receives the NEGATIVE font size -1/2. -/
theorem C3_fit_loop_counterexample :
    (0 : ℚ) ≤ 1 / 2 ∧
    (insert_text_block renderAlwaysOverflow (1 / 2 : ℚ)).1 = [1 / 2, -1 / 2] ∧
    ¬(((insert_text_block renderAlwaysOverflow (1 / 2 : ℚ)).1.length : ℚ) ≤ 1 / 2 + 1) ∧
    (-1 / 2 : ℚ) ∈ (insert_text_block renderAlwaysOverflow (1 / 2 : ℚ)).1 ∧
    (-1 / 2 : ℚ) < 0 := by
  have h1 : insert_text_block renderAlwaysOverflow (1 / 2 : ℚ) = ([1 / 2, -1 / 2], 1) := by
    rw [insert_text_block_step renderAlwaysOverflow _
      ⟨by norm_num [renderAlwaysOverflow], by norm_num⟩]
    have hc : (1 / 2 : ℚ) - 1 = -1 / 2 := by norm_num
    rw [hc]
    rw [insert_text_block_stop renderAlwaysOverflow _ (by rintro ⟨-, hq⟩; norm_num at hq)]
    norm_num
  rw [h1]
  refine ⟨by norm_num, rfl, by norm_num, by simp, by norm_num⟩

/-- C3 (amended): for every render behavior and every natural-number
starting font size `n`, the fit loop terminates (it is a total function)
after at most `n + 1` render attempts, never invokes the render primitive
with a negative font size, and -- when every attempt overflows and `n ≥ 1` --
decrements the size to zero, emitting the "Could not render text" diagnostic
exactly once; no exception is raised anywhere.  (For fractional starting
sizes the attempt bound and the nonnegativity both fail, as the
counterexample shows.) -/
theorem C3_fit_loop_amended (render : ℚ → ℤ) (n : ℕ) :
    (insert_text_block render (n : ℚ)).1.length ≤ n + 1 ∧
    (∀ q ∈ (insert_text_block render (n : ℚ)).1, 0 ≤ q) ∧
    ((∀ q, render q < 0) → 1 ≤ n → (insert_text_block render (n : ℚ)).2 = 1) :=
  ⟨insert_attempts_le render n, insert_attempts_nonneg render n,
   fun hfail hn => insert_diag_once render hfail n hn⟩

/-- C3 (witness): the amended theorem at starting size 3 against the
always-overflowing render stub. -/
theorem C3_fit_loop_amended_witness :
    (insert_text_block renderAlwaysOverflow ((3 : ℕ) : ℚ)).1.length ≤ 3 + 1 ∧
    (∀ q ∈ (insert_text_block renderAlwaysOverflow ((3 : ℕ) : ℚ)).1, 0 ≤ q) ∧
    (insert_text_block renderAlwaysOverflow ((3 : ℕ) : ℚ)).2 = 1 :=
  ⟨(C3_fit_loop_amended renderAlwaysOverflow 3).1,
   (C3_fit_loop_amended renderAlwaysOverflow 3).2.1,
   (C3_fit_loop_amended renderAlwaysOverflow 3).2.2
     (fun _ => show (-1 : ℤ) < 0 by decide) (by decide)⟩

/-! ### C10: strings without digits are always translatable -/

/-- C10 (confirmed): `sanitize_text` classifies the empty string and every
string of only whitespace characters as translatable, and more generally the
pure-digit rejection never fires on text containing no digit character. -/
theorem C10_no_digit_translatable :
    (sanitize_text "").2 = true ∧
    (∀ s : String, (∀ c ∈ s.toList, pyIsSpace c = true) → (sanitize_text s).2 = true) ∧
    (∀ s : String, (∀ c ∈ s.toList, c.isDigit = false) → (sanitize_text s).2 = true) := by
  refine ⟨by decide, ?_, sanitize_no_digit⟩
  intro s h
  exact sanitize_no_digit s (fun c hc => pyIsSpace_not_digit c (h c hc))

/-- C10 (witness): the whitespace clause at a concrete whitespace-and-newline
string. -/
theorem C10_no_digit_translatable_witness :
    (sanitize_text " \r\n\t ").2 = true :=
  C10_no_digit_translatable.2.1 " \r\n\t " (by decide)

/-! ### C5: multi-rotation detection in `extract_blocks` -/

/-- `pythonRound` fixes integral inputs. -/
theorem pythonRound_one : pythonRound 1 = 1 := by
  norm_num [pythonRound]

/-- `pythonRound` fixes zero. -/
theorem pythonRound_zero : pythonRound 0 = 0 := by
  norm_num [pythonRound]

/-- The unfolding of `process_block` on a block with a lines entry. -/
theorem process_block_some (b : PyBlock) (ls : List Line) (hl : b.lines = some ls) :
    process_block b =
      if (blockText ls).toList.all pyIsSpace then .ok none
      else if 1 < (blockRotations ls).length then .error multi_rotation_msg
      else
        .ok (some
          { bbox := b.bbox
            text := blockText ls
            avg_font_size := if (blockFontSizes ls).isEmpty then 0
                             else (blockFontSizes ls).sum / ((blockFontSizes ls).length : ℚ)
            common_font := mostCommon (blockFontNames ls)
            dir := (blockRotations ls).head? }) := by
  unfold process_block
  rw [hl]

/-- The unfolding of `extract_blocks` on a nonempty page. -/
theorem extract_blocks_cons (b : PyBlock) (rest : List PyBlock) :
    extract_blocks (b :: rest) =
      match process_block b with
      | .error e => .error e
      | .ok none => extract_blocks rest
      | .ok (some eb) =>
        match extract_blocks rest with
        | .error e => .error e
        | .ok tl => .ok (eb :: tl) := rfl

/-- A block with at most one distinct rounded direction is processed without
error. -/
theorem process_block_ok (b : PyBlock) (h : distinctRoundedDirs b ≤ 1) :
    ∃ o, process_block b = .ok o := by
  rcases hl : b.lines with _ | ls
  · refine ⟨none, ?_⟩
    unfold process_block
    rw [hl]
  · simp only [distinctRoundedDirs, hl] at h
    rw [process_block_some b ls hl]
    by_cases hs : (blockText ls).toList.all pyIsSpace = true
    · exact ⟨none, by rw [if_pos hs]⟩
    · exact ⟨some
        { bbox := b.bbox
          text := blockText ls
          avg_font_size := if (blockFontSizes ls).isEmpty then 0
                           else (blockFontSizes ls).sum / ((blockFontSizes ls).length : ℚ)
          common_font := mostCommon (blockFontNames ls)
          dir := (blockRotations ls).head? },
        by rw [if_neg hs, if_neg (by omega : ¬(1 < (blockRotations ls).length))]⟩

/-- A non-skipped block with two or more distinct rounded directions fails
the assert. -/
theorem process_block_error (b : PyBlock) (h2 : 2 ≤ distinctRoundedDirs b)
    (hs : isSkippedBlock b = false) :
    process_block b = .error multi_rotation_msg := by
  rcases hl : b.lines with _ | ls
  · exfalso
    have htrue : isSkippedBlock b = true := by unfold isSkippedBlock; rw [hl]
    rw [htrue] at hs
    exact Bool.noConfusion hs
  · simp only [distinctRoundedDirs, hl] at h2
    have hws : ¬((blockText ls).toList.all pyIsSpace = true) := by
      intro hh
      have heq : isSkippedBlock b = (blockText ls).toList.all pyIsSpace := by
        unfold isSkippedBlock; rw [hl]
      rw [heq, hh] at hs
      exact Bool.noConfusion hs
    rw [process_block_some b ls hl, if_neg hws,
      if_pos (by omega : 1 < (blockRotations ls).length)]

/-- The only error `process_block` can produce is the multi-rotation
message. -/
theorem process_block_error_msg (b : PyBlock) (e : String)
    (h : process_block b = .error e) : e = multi_rotation_msg := by
  rcases hl : b.lines with _ | ls
  · exfalso
    unfold process_block at h
    rw [hl] at h
    exact Except.noConfusion h
  · rw [process_block_some b ls hl] at h
    by_cases hs : (blockText ls).toList.all pyIsSpace = true
    · rw [if_pos hs] at h
      exact absurd h (by simp)
    · rw [if_neg hs] at h
      by_cases hr : 1 < (blockRotations ls).length
      · rw [if_pos hr] at h
        exact (Except.error.injEq _ _ ▸ h : multi_rotation_msg = e).symm
      · rw [if_neg hr] at h
        exact absurd h (by simp)

/-- A page all of whose blocks carry at most one distinct rounded direction
extracts without error. -/
theorem extract_blocks_ok (page : List PyBlock)
    (h : ∀ b ∈ page, distinctRoundedDirs b ≤ 1) :
    ∃ out, extract_blocks page = .ok out := by
  induction page with
  | nil => exact ⟨[], rfl⟩
  | cons b rest ih =>
    obtain ⟨o, ho⟩ := process_block_ok b (h b (List.mem_cons_self b rest))
    obtain ⟨tl, htl⟩ := ih (fun x hx => h x (List.mem_cons_of_mem b hx))
    rcases o with _ | eb
    · refine ⟨tl, ?_⟩
      rw [extract_blocks_cons, ho]
      exact htl
    · refine ⟨eb :: tl, ?_⟩
      rw [extract_blocks_cons, ho, htl]

/-- A page containing a non-skipped block with two or more distinct rounded
directions fails extraction with the multi-rotation error. -/
theorem extract_blocks_error (page : List PyBlock) (b : PyBlock) (hb : b ∈ page)
    (h2 : 2 ≤ distinctRoundedDirs b) (hs : isSkippedBlock b = false) :
    extract_blocks page = .error multi_rotation_msg := by
  induction page with
  | nil => exact absurd hb (List.not_mem_nil b)
  | cons b0 rest ih =>
    rcases List.mem_cons.mp hb with hbe | hbm
    · subst hbe
      rw [extract_blocks_cons, process_block_error b h2 hs]
    · rcases ho : process_block b0 with e | o
      · rw [process_block_error_msg b0 e ho] at ho
        rw [extract_blocks_cons, ho]
      · rcases o with _ | eb
        · rw [extract_blocks_cons, ho]
          exact ih hbm
        · rw [extract_blocks_cons, ho, ih hbm]

/-- A single-span whitespace-only line with a given direction. -/
def wsLine (d : ℚ × ℚ) : Line :=
  { dir := some d, spans := [{ text := " ", size := 10, font := "F" }] }

/-- A block whose two lines carry the distinct rounded directions (1,0) and
(0,1) but whose concatenated text is all-whitespace. -/
def wsMultiDirBlock : PyBlock :=
  { bbox := (0, 0, 50, 20), lines := some [wsLine (1, 0), wsLine (0, 1)] }

/-- C5 (counterexample): the claim "extraction fails with a fatal
multi-rotation error for every block with two or more distinct rounded
direction vectors" is false: a block whose lines carry the two distinct
rounded directions (1,0) and (0,1) but whose concatenated text is
all-whitespace is skipped by the emptiness check at line 223 BEFORE the
rotation assert at line 232, so extraction succeeds and returns no blocks. -/
theorem C5_extract_blocks_counterexample :
    2 ≤ distinctRoundedDirs wsMultiDirBlock ∧
    extract_blocks [wsMultiDirBlock] = .ok [] := by
  constructor
  · simp [distinctRoundedDirs, wsMultiDirBlock, blockRotations, wsLine, roundDir,
      pythonRound_one, pythonRound_zero]
  · rw [extract_blocks_cons, process_block_some wsMultiDirBlock _ rfl, if_pos (by decide)]
    rfl

/-- C5 (amended): extraction succeeds for every page all of whose blocks
carry at most one distinct rounded line direction; and it fails with the
fatal multi-rotation error for every block carrying two or more distinct
rounded directions, PROVIDED the block is not skipped first -- blocks
without a lines entry, or whose concatenated span text is empty or
all-whitespace, are skipped before the rotation check and never raise. -/
theorem C5_extract_blocks_amended (page : List PyBlock) :
    ((∀ b ∈ page, distinctRoundedDirs b ≤ 1) → ∃ out, extract_blocks page = .ok out) ∧
    (∀ b ∈ page, 2 ≤ distinctRoundedDirs b → isSkippedBlock b = false →
      extract_blocks page = .error multi_rotation_msg) :=
  ⟨extract_blocks_ok page,
   fun b hb h2 hs => extract_blocks_error page b hb h2 hs⟩

/-- A block with one real text line in a single direction. -/
def plainTextBlock : PyBlock :=
  { bbox := (0, 0, 50, 20),
    lines := some [{ dir := some (1, 0),
                     spans := [{ text := "Hello world", size := 11, font := "F" }] }] }

/-- A block like `wsMultiDirBlock` but with real text, so it is not skipped
and the multi-rotation assert fires. -/
def textMultiDirBlock : PyBlock :=
  { bbox := (0, 0, 50, 20),
    lines := some [{ dir := some (1, 0),
                     spans := [{ text := "Hello", size := 11, font := "F" }] },
                   { dir := some (0, 1),
                     spans := [{ text := "world", size := 11, font := "F" }] }] }

/-- C5 (witness): the amended theorem at concrete pages -- a one-block page
in a single direction extracts successfully, and a page with a non-skipped
two-direction block fails with the multi-rotation error. -/
theorem C5_extract_blocks_amended_witness :
    (∃ out, extract_blocks [plainTextBlock] = .ok out) ∧
    extract_blocks [textMultiDirBlock] = .error multi_rotation_msg := by
  constructor
  · apply (C5_extract_blocks_amended [plainTextBlock]).1
    intro b hb
    simp only [List.mem_singleton] at hb
    subst hb
    simp [distinctRoundedDirs, plainTextBlock, blockRotations, roundDir,
      pythonRound_one, pythonRound_zero]
  · apply (C5_extract_blocks_amended [textMultiDirBlock]).2 textMultiDirBlock
      (List.mem_singleton.mpr rfl)
    · simp [distinctRoundedDirs, textMultiDirBlock, blockRotations, roundDir,
        pythonRound_one, pythonRound_zero]
    · decide

/-! ### C6: font resolution for embedded-but-unusable fonts -/

/-- C6 (counterexample): with a catalog recording "F" as
embedded-but-unusable (null asset) and a designated default "D" with a
usable asset, resolution of "F" does NOT fall back to the default: it goes
straight to the built-in baseline identifier with no font file. -/
theorem C6_font_counterexample :
    resolve_font [("F", none), ("D", some "/tmp/default.ttf")] "D" (some "F") =
      (FALLBACK_FONT_NAME, none) ∧
    FALLBACK_FONT_NAME ≠ "D" := by
  decide

/-- C6 (amended): a requested font recorded as embedded-but-unusable
(present with a null asset) resolves directly to the built-in baseline
identifier with no font file, whether or not a designated default exists;
the designated default is used only for requested names absent from the
catalog (yielding the default's usable asset when it has one). -/
theorem C6_font_fallback (usable_fonts : List (String × Option String))
    (default_font_name f : String) :
    (usable_fonts.lookup f = some none →
      resolve_font usable_fonts default_font_name (some f) = (FALLBACK_FONT_NAME, none)) ∧
    (usable_fonts.lookup f = none → f ≠ default_font_name →
      ∀ p, usable_fonts.lookup default_font_name = some (some p) →
        resolve_font usable_fonts default_font_name (some f) = (default_font_name, some p)) := by
  constructor
  · intro h
    simp [resolve_font, h]
  · intro h hne p hp
    simp [resolve_font, h, hne, hp]

/-- C6 (witness): the amended theorem at a concrete catalog -- an unusable
"F" resolves to the baseline, an unknown "X" resolves to the default. -/
theorem C6_font_fallback_witness :
    resolve_font [("F", none), ("G", some "/tmp/d.ttf")] "G" (some "F") =
      (FALLBACK_FONT_NAME, none) ∧
    resolve_font [("F", none), ("G", some "/tmp/d.ttf")] "G" (some "X") =
      ("G", some "/tmp/d.ttf") :=
  ⟨(C6_font_fallback [("F", none), ("G", some "/tmp/d.ttf")] "G" "F").1 (by decide),
   (C6_font_fallback [("F", none), ("G", some "/tmp/d.ttf")] "G" "X").2 (by decide) (by decide)
     "/tmp/d.ttf" (by decide)⟩

/-! ### C7: request size budgeting in `_execute_prompt` -/

/-- A stub backend that always completes normally. -/
def stubBackendOk : String → ℤ → Option OpenAiResponse :=
  fun _ _ => some { finish_reason := "stop", content := "OK" }

set_option maxRecDepth 4096 in
/-- C7 (counterexample): with a context budget of 10 tokens and a prompt of
far more than 10 tokens, `_execute_prompt` does not reject the request as
too long: the backend is still invoked (once) and its answer is returned,
not a null result. -/
theorem C7_budget_counterexample :
    (10 : ℤ) < (String.length (create_prompt "en" "fr" "hello") : ℤ) ∧
    execute_prompt String.length 10 stubBackendOk "en" "fr" "hello" = (some "OK", 1) := by
  constructor
  · decide
  · rfl

/-- C7 (amended): `_execute_prompt` measures the prompt's token count, but
`free_tokens = max(context - request, context)` always equals the full
context budget, so no request-size check can ever fire: the backend is
invoked exactly once for every prompt, however large, with the response cap
equal to the whole context window, and a normally-finishing response is
returned as the result. -/
theorem C7_budget_amended (tok : String → ℕ) (ctx : ℤ)
    (backend : String → ℤ → Option OpenAiResponse) (lang_from lang_to text : String) :
    (execute_prompt tok ctx backend lang_from lang_to text).2 = 1 ∧
    max (ctx - (tok (create_prompt lang_from lang_to text) : ℤ)) ctx = ctx ∧
    (∀ resp, backend (create_prompt lang_from lang_to text) ctx = some resp →
      resp.finish_reason = "stop" →
      (execute_prompt tok ctx backend lang_from lang_to text).1 = some resp.content) := by
  have hmax : max (ctx - (tok (create_prompt lang_from lang_to text) : ℤ)) ctx = ctx :=
    max_eq_right (sub_le_self ctx (Int.natCast_nonneg _))
  refine ⟨rfl, hmax, ?_⟩
  intro resp hresp hstop
  simp only [execute_prompt, hmax, hresp, if_pos hstop]

/-- C7 (witness): the amended theorem at the counterexample's concrete
instance. -/
theorem C7_budget_amended_witness :
    (execute_prompt String.length 10 stubBackendOk "en" "fr" "hello").2 = 1 ∧
    (execute_prompt String.length 10 stubBackendOk "en" "fr" "hello").1 = some "OK" :=
  ⟨(C7_budget_amended String.length 10 stubBackendOk "en" "fr" "hello").1,
   (C7_budget_amended String.length 10 stubBackendOk "en" "fr" "hello").2.2
     { finish_reason := "stop", content := "OK" } rfl rfl⟩

/-! ### C8: cache closure on exceptions in `translate_pdf` -/

/-- C8 (code evaluation): when a durable cache file is configured and the
translator constructor raises after `super().__init__` has opened the shelve
cache (a missing OPENAI_API_MODEL fails the assert at line 72), the `except`
clause of `translate_pdf` sees `translator is None` and never calls
`close_cache`: the run propagates the exception with the cache still open
(first conjunct), violating the claim.  By contrast, an exception raised in
the body after successful construction does close the cache before
propagating (last conjunct), and no failed run saves an output file. -/
theorem C8_cache_leak_on_init_failure :
    translate_pdf_lifecycle (some "cache.db") false true "report-fr.pdf" =
      ({ cache_open := true, output := none }, some "OPENAI_API_MODEL is not set") ∧
    (translate_pdf_lifecycle (some "cache.db") false true "report-fr.pdf").2.isSome = true ∧
    translate_pdf_lifecycle (some "cache.db") true false "report-fr.pdf" =
      ({ cache_open := false, output := none }, some "exception in translation body") := by
  refine ⟨rfl, rfl, rfl⟩

/-! ### C9: dry-run token count versus submitted prompt -/

/-- C9 (code evaluation): `get_request_token_count` returns the character
length of the bare source text (`_create_prompt_text` is the inherited
identity, and the tokenizer `_get_token_count` is never consulted), while
the prompt actually submitted for that text, `_create_prompt(text)`, is a
strictly longer string whose token count the backend path measures; the
dry-run number is therefore a character count of a different string than
the one tokenized at submission time. -/
theorem C9_token_count_mismatch (lang_from lang_to text : String) :
    get_request_token_count text = text.length ∧
    text.length < (create_prompt lang_from lang_to text).length := by
  constructor
  · rfl
  · have h1 : 0 < ("You are an expert in " : String).length := by decide
    simp only [create_prompt, String.length_append]
    omega

end PdfTranslationLayer
